import Mathlib

/-!
Shallow embedding of `src/main.rs` of `hasenbanck/egui_example`: a winit
event loop wiring an egui immediate-mode UI to a wgpu swap chain.

The program is modelled as
* an initialization sequence (`mainInitSequence`, lines 16-75 of the
  source), recording each boilerplate step in order and which steps block
  on an asynchronous GPU request via `block_on`;
* a state machine for the event-loop closure (lines 76-139): the mutable
  state captured by the closure (`LoopState`: `sc_desc`, `swap_chain`,
  `control_flow`, `app`) together with the trace of external calls the
  closure performs on one event (`Action`).  Whether
  `swap_chain.get_current_frame()` succeeds is an oracle input `frameOk`.
-/

namespace EguiExample

/-- `wgpu::TextureUsage` (only the variant the program uses, plus another
so the type is not a singleton). -/
inductive TextureUsage
  | OUTPUT_ATTACHMENT
  | COPY_SRC
  deriving DecidableEq, Repr

/-- `wgpu::TextureFormat` (the variant used, plus another). -/
inductive TextureFormat
  | Bgra8Unorm
  | Rgba8Unorm
  deriving DecidableEq, Repr

/-- `wgpu::PresentMode`. -/
inductive PresentMode
  | Immediate
  | Mailbox
  | Fifo
  deriving DecidableEq, Repr

/-- `const OUTPUT_FORMAT: wgpu::TextureFormat = wgpu::TextureFormat::Bgra8Unorm;`
(line 13). -/
def OUTPUT_FORMAT : TextureFormat := TextureFormat.Bgra8Unorm

/-- `wgpu::SwapChainDescriptor` (the fields set at lines 53-59). -/
structure SwapChainDescriptor where
  usage : TextureUsage
  format : TextureFormat
  width : Nat
  height : Nat
  present_mode : PresentMode
  deriving DecidableEq, Repr

/-- A swap chain, abstracted as the descriptor it was created from:
`device.create_swap_chain(&surface, &sc_desc)` snapshots `sc_desc`. -/
structure SwapChain where
  createdFrom : SwapChainDescriptor
  deriving DecidableEq, Repr

/-- `winit::dpi::PhysicalSize` as carried by `WindowEvent::Resized`. -/
structure PhysicalSize where
  width : Nat
  height : Nat
  deriving DecidableEq, Repr

/-- The `winit::event::WindowEvent` variants the match at lines 126-136
distinguishes; all others fall into `OtherWindowEvent` (the `_ => {}` arm). -/
inductive WindowEvent
  | Resized (size : PhysicalSize)
  | CloseRequested
  | OtherWindowEvent
  deriving DecidableEq, Repr

/-- The `winit::event::Event` variants the match at lines 79-138
distinguishes; all others fall into `OtherEvent` (the `_ => ()` arm). -/
inductive Event
  | RedrawRequested
  | MainEventsCleared
  | WindowEvent (event : WindowEvent)
  | OtherEvent
  deriving DecidableEq, Repr

/-- `winit::event_loop::ControlFlow` (the variants the program assigns). -/
inductive ControlFlow
  | Poll
  | Wait
  | Exit
  deriving DecidableEq, Repr

/-- One top-level widget description emitted by `DemoApp` during a frame:
the menu bar (`egui::menu::bar`) or an `egui::Window::new(title)`. -/
inductive Widget
  | menuBar
  | window (title : String)
  deriving DecidableEq, Repr

/-- `DemoApp` (lines 143-145): its only field is the retained
`egui::demos::DemoWindow` *data* (library-internal demo settings, opaque
here); it retains no widget objects. -/
structure DemoApp where
  demo_window : Unit
  deriving DecidableEq, Repr

/-- `DemoApp::show_menu_bar` (lines 178-199): describes the menu bar. -/
def DemoApp.show_menu_bar (_self : DemoApp) : List Widget :=
  [Widget.menuBar]

/-- `DemoApp::resize_windows` (lines 201-246): four resize-demonstration
windows, in source order. -/
def DemoApp.resize_windows (_self : DemoApp) : List Widget :=
  [Widget.window "resizable",
   Widget.window "resizable + embedded scroll",
   Widget.window "resizable + scroll",
   Widget.window "auto_sized"]

/-- `DemoApp::windows` (lines 154-176): the Demo, Settings, Inspection and
Memory windows, then `self.resize_windows(ctx)`. -/
def DemoApp.windows (self : DemoApp) : List Widget :=
  [Widget.window "Demo",
   Widget.window "Settings",
   Widget.window "Inspection",
   Widget.window "Memory"] ++ self.resize_windows

/-- `DemoApp::ui` (lines 148-151): `self.show_menu_bar(&mut ui)` then
`self.windows(ui.ctx())`. -/
def DemoApp.ui (self : DemoApp) : List Widget :=
  self.show_menu_bar ++ self.windows

/-- `impl Default for DemoApp` (lines 249-255). -/
def DemoApp.default : DemoApp :=
  { demo_window := () }

/-- External calls performed by the event-loop closure, in the order it
performs them; one trace entry per call site. -/
inductive Action
  | handle_event (event : Event)
  | update_time
  | get_current_frame (ok : Bool)
  | eprintln_dropped_frame
  | begin_frame
  | draw_widget (w : Widget)
  | end_frame
  | create_command_encoder
  | update_texture
  | update_buffers
  | execute_render_pass (width height : Nat)
  | queue_submit
  | request_redraw
  | create_swap_chain (desc : SwapChainDescriptor)
  deriving DecidableEq, Repr

/-- The mutable state captured by the `event_loop.run` closure together
with the `control_flow` out-parameter: `sc_desc`, `swap_chain`,
`control_flow`, and `app`. -/
structure LoopState where
  sc_desc : SwapChainDescriptor
  swap_chain : SwapChain
  control_flow : ControlFlow
  app : DemoApp
  deriving DecidableEq, Repr

/-- The body of the `event_loop.run` closure (lines 76-139), translated
arm by arm.  `frameOk` tells whether `swap_chain.get_current_frame()`
succeeds on a `RedrawRequested` event (it is ignored elsewhere).  Returns
the updated state and the trace of external calls made while handling the
event. -/
def handleEvent (s : LoopState) (event : Event) (frameOk : Bool) :
    LoopState × List Action :=
  -- line 77: platform.handle_event(&event), before the match
  let pre : List Action := [Action.handle_event event]
  match event with
  | Event.RedrawRequested =>
    -- line 81: platform.update_time(...)
    -- lines 83-89: get_current_frame, early return printing the error
    if frameOk then
      let acts := pre ++
        [Action.update_time, Action.get_current_frame true,
         Action.begin_frame] ++
        (s.app.ui.map Action.draw_widget) ++
        [Action.end_frame, Action.create_command_encoder,
         Action.update_texture, Action.update_buffers,
         Action.execute_render_pass s.sc_desc.width s.sc_desc.height,
         Action.queue_submit]
      ({ s with control_flow := ControlFlow.Poll }, acts)
    else
      (s, pre ++ [Action.update_time, Action.get_current_frame false,
                  Action.eprintln_dropped_frame])
  | Event.MainEventsCleared =>
    -- lines 122-125
    ({ s with control_flow := ControlFlow.Wait },
     pre ++ [Action.request_redraw])
  | Event.WindowEvent we =>
    match we with
    | WindowEvent.Resized size =>
      -- lines 127-131
      let sc_desc : SwapChainDescriptor :=
        { s.sc_desc with width := size.width, height := size.height }
      ({ s with sc_desc := sc_desc, swap_chain := { createdFrom := sc_desc } },
       pre ++ [Action.create_swap_chain sc_desc])
    | WindowEvent.CloseRequested =>
      -- lines 132-134
      ({ s with control_flow := ControlFlow.Exit }, pre)
    | WindowEvent.OtherWindowEvent =>
      (s, pre)
  | Event.OtherEvent =>
    (s, pre)

/-- The boilerplate steps of `main` before and including entering the
event loop (lines 16-76), in source order. -/
inductive InitStep
  | create_event_loop
  | build_window
  | create_instance
  | create_surface
  | request_adapter_block_on
  | request_device_block_on
  | query_inner_size
  | build_swap_chain_descriptor
  | create_swap_chain
  | create_winit_platform
  | create_egui_render_pass
  | create_demo_app
  | run_event_loop
  deriving DecidableEq, Repr

/-- Which initialization steps block on an asynchronous GPU request
(`block_on(...)` at lines 33-37 and 39-50). -/
def InitStep.isBlocking : InitStep → Bool
  | InitStep.request_adapter_block_on => true
  | InitStep.request_device_block_on => true
  | _ => false

/-- The steps `main` performs, in the order the source performs them
(lines 17, 18-28, 30, 31, 33-37, 39-50, 52, 53-59, 60, 63-67, 70, 73, 76). -/
def mainInitSequence : List InitStep :=
  [InitStep.create_event_loop,
   InitStep.build_window,
   InitStep.create_instance,
   InitStep.create_surface,
   InitStep.request_adapter_block_on,
   InitStep.request_device_block_on,
   InitStep.query_inner_size,
   InitStep.build_swap_chain_descriptor,
   InitStep.create_swap_chain,
   InitStep.create_winit_platform,
   InitStep.create_egui_render_pass,
   InitStep.create_demo_app,
   InitStep.run_event_loop]

/-- The descriptor built at lines 53-59 from the inner size queried at
line 52. -/
def initialDescriptor (size : PhysicalSize) : SwapChainDescriptor :=
  { usage := TextureUsage.OUTPUT_ATTACHMENT,
    format := OUTPUT_FORMAT,
    width := size.width,
    height := size.height,
    present_mode := PresentMode.Fifo }

/-- The closure state on entering the event loop: the descriptor built
from the queried inner size (lines 52-59), the swap chain created from it
(line 60), the default `DemoApp` (line 73), and winit's initial
`ControlFlow::Poll`. -/
def initialState (size : PhysicalSize) : LoopState :=
  { sc_desc := initialDescriptor size,
    swap_chain := { createdFrom := initialDescriptor size },
    control_flow := ControlFlow.Poll,
    app := DemoApp.default }

/-- Run the event loop over a list of events, each paired with its
`get_current_frame` oracle. -/
def run (s : LoopState) : List (Event × Bool) → LoopState
  | [] => s
  | (e, ok) :: rest => run (handleEvent s e ok).1 rest

/-- The window size most recently reported to the program: the size
queried at startup, or the size of the last `Resized` event. -/
def lastReportedSize (size : PhysicalSize) : List (Event × Bool) → PhysicalSize
  | [] => size
  | (e, _) :: rest =>
    lastReportedSize
      (match e with
       | Event.WindowEvent (WindowEvent.Resized sz) => sz
       | _ => size) rest

/-- Handling any single event never changes the `usage`, `format` or
`present_mode` fields of the swap chain descriptor. -/
theorem handleEvent_fixed_fields (s : LoopState) (e : Event) (ok : Bool) :
    (handleEvent s e ok).1.sc_desc.usage = s.sc_desc.usage ∧
    (handleEvent s e ok).1.sc_desc.format = s.sc_desc.format ∧
    (handleEvent s e ok).1.sc_desc.present_mode = s.sc_desc.present_mode := by
  cases e with
  | RedrawRequested =>
    cases ok with
    | false => exact ⟨rfl, rfl, rfl⟩
    | true => exact ⟨rfl, rfl, rfl⟩
  | MainEventsCleared => exact ⟨rfl, rfl, rfl⟩
  | WindowEvent we =>
    cases we with
    | Resized sz => exact ⟨rfl, rfl, rfl⟩
    | CloseRequested => exact ⟨rfl, rfl, rfl⟩
    | OtherWindowEvent => exact ⟨rfl, rfl, rfl⟩
  | OtherEvent => exact ⟨rfl, rfl, rfl⟩

/-- Running the event loop never changes the `usage`, `format` or
`present_mode` fields of the swap chain descriptor. -/
theorem run_fixed_fields (evs : List (Event × Bool)) (s : LoopState) :
    (run s evs).sc_desc.usage = s.sc_desc.usage ∧
    (run s evs).sc_desc.format = s.sc_desc.format ∧
    (run s evs).sc_desc.present_mode = s.sc_desc.present_mode := by
  induction evs generalizing s with
  | nil => exact ⟨rfl, rfl, rfl⟩
  | cons p rest ih =>
    obtain ⟨e, ok⟩ := p
    have h1 := handleEvent_fixed_fields s e ok
    have h2 := ih (handleEvent s e ok).1
    exact ⟨h2.1.trans h1.1, h2.2.1.trans h1.2.1, h2.2.2.trans h1.2.2⟩

/-- If the descriptor size matches `size` and the swap chain was created
from the descriptor, then after running any events the descriptor size
matches the last reported size and the swap chain still matches the
descriptor. -/
theorem run_size_invariant (evs : List (Event × Bool)) (s : LoopState)
    (size : PhysicalSize) (hw : s.sc_desc.width = size.width)
    (hh : s.sc_desc.height = size.height)
    (hc : s.swap_chain.createdFrom = s.sc_desc) :
    (run s evs).sc_desc.width = (lastReportedSize size evs).width ∧
    (run s evs).sc_desc.height = (lastReportedSize size evs).height ∧
    (run s evs).swap_chain.createdFrom = (run s evs).sc_desc := by
  induction evs generalizing s size with
  | nil => exact ⟨hw, hh, hc⟩
  | cons p rest ih =>
    obtain ⟨e, ok⟩ := p
    cases e with
    | RedrawRequested =>
      cases ok with
      | false => exact ih s size hw hh hc
      | true => exact ih _ size hw hh hc
    | MainEventsCleared => exact ih _ size hw hh hc
    | WindowEvent we =>
      cases we with
      | Resized sz => exact ih _ sz rfl rfl rfl
      | CloseRequested => exact ih _ size hw hh hc
      | OtherWindowEvent => exact ih _ size hw hh hc
    | OtherEvent => exact ih _ size hw hh hc

/-- A single event sets the control flow to `Exit` only if it is
`CloseRequested` (or the control flow already was `Exit`). -/
theorem exit_only_on_close (s : LoopState) (e : Event) (ok : Bool)
    (h : (handleEvent s e ok).1.control_flow = ControlFlow.Exit) :
    e = Event.WindowEvent WindowEvent.CloseRequested ∨
      s.control_flow = ControlFlow.Exit := by
  cases e with
  | RedrawRequested =>
    cases ok with
    | false => exact Or.inr h
    | true => exact absurd h (by intro hx; exact ControlFlow.noConfusion hx)
  | MainEventsCleared => exact absurd h (by intro hx; exact ControlFlow.noConfusion hx)
  | WindowEvent we =>
    cases we with
    | Resized sz => exact Or.inr h
    | CloseRequested => exact Or.inl rfl
    | OtherWindowEvent => exact Or.inr h
  | OtherEvent => exact Or.inr h

/-- If a run ends with control flow `Exit`, some `CloseRequested` event
was received (or the run started at `Exit`). -/
theorem run_exit_has_close (evs : List (Event × Bool)) (s : LoopState)
    (h : (run s evs).control_flow = ControlFlow.Exit) :
    Event.WindowEvent WindowEvent.CloseRequested ∈ evs.map Prod.fst ∨
      s.control_flow = ControlFlow.Exit := by
  induction evs generalizing s with
  | nil => exact Or.inr h
  | cons p rest ih =>
    obtain ⟨e, ok⟩ := p
    rcases ih (handleEvent s e ok).1 h with hm | hex
    · exact Or.inl (List.mem_cons_of_mem _ hm)
    · rcases exit_only_on_close s e ok hex with he | hs
      · subst he
        exact Or.inl (List.mem_cons_self _ _)
      · exact Or.inr hs

/-- C1: for every `Resized` window event carrying a new size, the handler
sets the swap chain descriptor's `width` and `height` to the event's width
and height and then calls `device.create_swap_chain` on the updated
descriptor, so the recreated swap chain matches the resize event. -/
theorem C1_resized_matches_swap_chain (s : LoopState) (size : PhysicalSize)
    (ok : Bool) :
    (handleEvent s (Event.WindowEvent (WindowEvent.Resized size)) ok).1.sc_desc.width
      = size.width ∧
    (handleEvent s (Event.WindowEvent (WindowEvent.Resized size)) ok).1.sc_desc.height
      = size.height ∧
    (handleEvent s (Event.WindowEvent (WindowEvent.Resized size)) ok).1.swap_chain.createdFrom
      = (handleEvent s (Event.WindowEvent (WindowEvent.Resized size)) ok).1.sc_desc ∧
    (handleEvent s (Event.WindowEvent (WindowEvent.Resized size)) ok).2 =
      [Action.handle_event (Event.WindowEvent (WindowEvent.Resized size)),
       Action.create_swap_chain
         (handleEvent s (Event.WindowEvent (WindowEvent.Resized size)) ok).1.sc_desc] :=
  ⟨rfl, rfl, rfl, rfl⟩

/-- C2 counterexample: the initialization sequence contains two blocking
waits on asynchronous GPU requests (`block_on(instance.request_adapter(..))`
and `block_on(adapter.request_device(..))`), not exactly one. -/
theorem C2_counterexample_two_blocking_waits :
    (mainInitSequence.filter InitStep.isBlocking).length = 2 ∧
    ¬ (mainInitSequence.filter InitStep.isBlocking).length = 1 := by
  decide

/-- C2 (amended): during the whole run there are exactly two blocking
waits on asynchronous GPU requests — the adapter request and the device
request — both performed before the event loop is entered; the event-loop
handler itself performs no blocking wait (no `Action` models one). -/
theorem C2_amended_two_blocking_waits :
    mainInitSequence.filter InitStep.isBlocking =
      [InitStep.request_adapter_block_on, InitStep.request_device_block_on] ∧
    mainInitSequence.indexOf InitStep.request_adapter_block_on <
      mainInitSequence.indexOf InitStep.run_event_loop ∧
    mainInitSequence.indexOf InitStep.request_device_block_on <
      mainInitSequence.indexOf InitStep.run_event_loop := by
  decide

/-- C3: before entering the event loop, `main` creates the window, then
initializes the instance, surface, adapter, device and swap chain, then
the `WinitPlatform` adapter and the `EguiRenderPass` backend, and only
then (as the last step) runs the event loop. -/
theorem C3_init_order :
    mainInitSequence.indexOf InitStep.build_window <
      mainInitSequence.indexOf InitStep.create_instance ∧
    mainInitSequence.indexOf InitStep.create_instance <
      mainInitSequence.indexOf InitStep.create_surface ∧
    mainInitSequence.indexOf InitStep.create_surface <
      mainInitSequence.indexOf InitStep.request_adapter_block_on ∧
    mainInitSequence.indexOf InitStep.request_adapter_block_on <
      mainInitSequence.indexOf InitStep.request_device_block_on ∧
    mainInitSequence.indexOf InitStep.request_device_block_on <
      mainInitSequence.indexOf InitStep.create_swap_chain ∧
    mainInitSequence.indexOf InitStep.create_swap_chain <
      mainInitSequence.indexOf InitStep.create_winit_platform ∧
    mainInitSequence.indexOf InitStep.create_winit_platform <
      mainInitSequence.indexOf InitStep.create_egui_render_pass ∧
    mainInitSequence.indexOf InitStep.create_egui_render_pass <
      mainInitSequence.indexOf InitStep.run_event_loop ∧
    mainInitSequence.getLast? = some InitStep.run_event_loop := by
  decide

/-- C4: every event received by the event-loop closure is forwarded to
the platform adapter (`platform.handle_event`) as the very first action,
before any event-specific handling. -/
theorem C4_events_forwarded_first (s : LoopState) (e : Event) (ok : Bool) :
    (handleEvent s e ok).2.head? = some (Action.handle_event e) := by
  cases e with
  | RedrawRequested => cases ok <;> rfl
  | MainEventsCleared => rfl
  | WindowEvent we => cases we <;> rfl
  | OtherEvent => rfl

/-- C5: on every `RedrawRequested` event for which a swap-chain frame is
acquired, the handler performs, in order: update the platform time,
acquire the frame, begin a UI frame, draw the demo widgets, end the UI
frame, upload the texture and the buffers, record the render pass at the
descriptor's size, and submit to the queue. -/
theorem C5_redraw_pipeline_order (s : LoopState) :
    (handleEvent s Event.RedrawRequested true).2 =
      [Action.handle_event Event.RedrawRequested, Action.update_time,
       Action.get_current_frame true, Action.begin_frame] ++
      (DemoApp.ui s.app).map Action.draw_widget ++
      [Action.end_frame, Action.create_command_encoder, Action.update_texture,
       Action.update_buffers,
       Action.execute_render_pass s.sc_desc.width s.sc_desc.height,
       Action.queue_submit] ∧
    List.Sublist
      [Action.update_time, Action.begin_frame, Action.end_frame,
       Action.update_texture, Action.update_buffers,
       Action.execute_render_pass s.sc_desc.width s.sc_desc.height,
       Action.queue_submit]
      (handleEvent s Event.RedrawRequested true).2 :=
  ⟨rfl,
   List.Sublist.cons _ (List.Sublist.cons₂ _ (List.Sublist.cons _
     (List.Sublist.cons₂ _ (List.Sublist.cons _ (List.Sublist.cons _
       (List.Sublist.cons _ (List.Sublist.cons _ (List.Sublist.cons _
         (List.Sublist.cons _ (List.Sublist.cons _ (List.Sublist.cons _
           (List.Sublist.cons _ (List.Sublist.cons₂ _ (List.Sublist.cons _
             (List.Sublist.cons₂ _ (List.Sublist.cons₂ _
               (List.Sublist.cons₂ _ (List.Sublist.cons₂ _
                 List.Sublist.slnil))))))))))))))))))⟩

/-- C6: on every frame, `DemoApp.ui` re-describes the entire widget tree
(the menu bar and the Demo, Settings, Inspection, Memory and four
resize-demonstration windows) between `begin_frame` and `end_frame`; the
description is the same whatever the retained `DemoApp` data, and the
handler leaves the `DemoApp` unchanged — no widget objects persist across
frames. -/
theorem C6_ui_redescribed_each_frame (s : LoopState) (a b : DemoApp) :
    DemoApp.ui a =
      [Widget.menuBar, Widget.window "Demo", Widget.window "Settings",
       Widget.window "Inspection", Widget.window "Memory",
       Widget.window "resizable", Widget.window "resizable + embedded scroll",
       Widget.window "resizable + scroll", Widget.window "auto_sized"] ∧
    DemoApp.ui a = DemoApp.ui b ∧
    (handleEvent s Event.RedrawRequested true).2 =
      [Action.handle_event Event.RedrawRequested, Action.update_time,
       Action.get_current_frame true, Action.begin_frame] ++
      (DemoApp.ui s.app).map Action.draw_widget ++
      [Action.end_frame, Action.create_command_encoder, Action.update_texture,
       Action.update_buffers,
       Action.execute_render_pass s.sc_desc.width s.sc_desc.height,
       Action.queue_submit] ∧
    (handleEvent s Event.RedrawRequested true).1.app = s.app :=
  ⟨rfl, rfl, rfl, rfl⟩

/-- C7: a `Resized` event changes only the `width` and `height` fields of
the swap chain descriptor, and over any run from the initial state the
`usage` stays `OUTPUT_ATTACHMENT`, the `format` stays `Bgra8Unorm` and
the `present_mode` stays `Fifo`. -/
theorem C7_resize_changes_only_size (s : LoopState) (sz : PhysicalSize)
    (ok : Bool) (size : PhysicalSize) (evs : List (Event × Bool)) :
    (handleEvent s (Event.WindowEvent (WindowEvent.Resized sz)) ok).1.sc_desc =
      { s.sc_desc with width := sz.width, height := sz.height } ∧
    (run (initialState size) evs).sc_desc.usage =
      TextureUsage.OUTPUT_ATTACHMENT ∧
    (run (initialState size) evs).sc_desc.format = TextureFormat.Bgra8Unorm ∧
    (run (initialState size) evs).sc_desc.present_mode = PresentMode.Fifo :=
  ⟨rfl, (run_fixed_fields evs (initialState size)).1,
   (run_fixed_fields evs (initialState size)).2.1,
   (run_fixed_fields evs (initialState size)).2.2⟩

/-- C8: when `get_current_frame` fails on a `RedrawRequested` event, the
handler prints the error and returns immediately: the state (descriptor,
swap chain, control flow, app) is unchanged, and no UI frame is begun,
nothing is uploaded and nothing is submitted to the queue. -/
theorem C8_dropped_frame_atomic (s : LoopState) :
    handleEvent s Event.RedrawRequested false =
      (s, [Action.handle_event Event.RedrawRequested, Action.update_time,
           Action.get_current_frame false, Action.eprintln_dropped_frame]) ∧
    Action.begin_frame ∉ (handleEvent s Event.RedrawRequested false).2 ∧
    Action.update_texture ∉ (handleEvent s Event.RedrawRequested false).2 ∧
    Action.update_buffers ∉ (handleEvent s Event.RedrawRequested false).2 ∧
    Action.queue_submit ∉ (handleEvent s Event.RedrawRequested false).2 :=
  ⟨rfl,
   by
     show Action.begin_frame ∉
       [Action.handle_event Event.RedrawRequested, Action.update_time,
        Action.get_current_frame false, Action.eprintln_dropped_frame]
     decide,
   by
     show Action.update_texture ∉
       [Action.handle_event Event.RedrawRequested, Action.update_time,
        Action.get_current_frame false, Action.eprintln_dropped_frame]
     decide,
   by
     show Action.update_buffers ∉
       [Action.handle_event Event.RedrawRequested, Action.update_time,
        Action.get_current_frame false, Action.eprintln_dropped_frame]
     decide,
   by
     show Action.queue_submit ∉
       [Action.handle_event Event.RedrawRequested, Action.update_time,
        Action.get_current_frame false, Action.eprintln_dropped_frame]
     decide⟩

/-- C9: after initialization and after every processed event, the swap
chain descriptor's width and height equal the most recently reported
window size (the size queried at startup or the last `Resized` event),
and the swap chain in use was created from that descriptor. -/
theorem C9_descriptor_tracks_window_size (size : PhysicalSize)
    (evs : List (Event × Bool)) :
    (run (initialState size) evs).sc_desc.width =
      (lastReportedSize size evs).width ∧
    (run (initialState size) evs).sc_desc.height =
      (lastReportedSize size evs).height ∧
    (run (initialState size) evs).swap_chain.createdFrom =
      (run (initialState size) evs).sc_desc :=
  run_size_invariant evs (initialState size) size rfl rfl rfl

/-- C10: the control flow is set to `Exit` exactly on `CloseRequested`;
a successful redraw sets `Poll`, `MainEventsCleared` sets `Wait`, every
other event leaves it unchanged, and a run from the initial state can
only end at `Exit` if a `CloseRequested` event was received. -/
theorem C10_exit_iff_close_requested (s : LoopState) (ok : Bool)
    (sz : PhysicalSize) (size : PhysicalSize) (evs : List (Event × Bool)) :
    (handleEvent s (Event.WindowEvent WindowEvent.CloseRequested) ok).1.control_flow
      = ControlFlow.Exit ∧
    (handleEvent s Event.RedrawRequested true).1.control_flow
      = ControlFlow.Poll ∧
    (handleEvent s Event.RedrawRequested false).1.control_flow
      = s.control_flow ∧
    (handleEvent s Event.MainEventsCleared ok).1.control_flow
      = ControlFlow.Wait ∧
    (handleEvent s (Event.WindowEvent (WindowEvent.Resized sz)) ok).1.control_flow
      = s.control_flow ∧
    (handleEvent s (Event.WindowEvent WindowEvent.OtherWindowEvent) ok).1.control_flow
      = s.control_flow ∧
    (handleEvent s Event.OtherEvent ok).1.control_flow = s.control_flow ∧
    (∀ e, (handleEvent s e ok).1.control_flow = ControlFlow.Exit →
      e = Event.WindowEvent WindowEvent.CloseRequested ∨
        s.control_flow = ControlFlow.Exit) ∧
    ((run (initialState size) evs).control_flow = ControlFlow.Exit →
      Event.WindowEvent WindowEvent.CloseRequested ∈ evs.map Prod.fst) := by
  refine ⟨rfl, rfl, rfl, rfl, rfl, rfl, rfl, ?_, ?_⟩
  · intro e h
    exact exit_only_on_close s e ok h
  · intro h
    rcases run_exit_has_close evs (initialState size) h with hm | hex
    · exact hm
    · exact absurd hex (by intro hx; exact ControlFlow.noConfusion hx)

/-- C10 witness: applying the theorem at a concrete state and the
one-event trace consisting of a `CloseRequested` event. -/
theorem C10_exit_iff_close_requested_witness :
    (Event.WindowEvent WindowEvent.CloseRequested =
        Event.WindowEvent WindowEvent.CloseRequested ∨
      (initialState ⟨1920, 1080⟩).control_flow = ControlFlow.Exit) ∧
    Event.WindowEvent WindowEvent.CloseRequested ∈
      ([((Event.WindowEvent WindowEvent.CloseRequested : Event), true)].map
        Prod.fst) := by
  have h := C10_exit_iff_close_requested (initialState ⟨1920, 1080⟩) true
    ⟨100, 200⟩ ⟨1920, 1080⟩
    [(Event.WindowEvent WindowEvent.CloseRequested, true)]
  exact ⟨h.2.2.2.2.2.2.2.1 (Event.WindowEvent WindowEvent.CloseRequested) rfl,
         h.2.2.2.2.2.2.2.2 rfl⟩

end EguiExample
